import Mathlib

/-!
Shallow embedding of the record/playback test-proxy integration
(Azure-Samples/record-playback-test-proxy-demo-go).

The repository contains three near-identical variants of the integration:

* `src/testproxytransport.go` — `TestProxyTransport` (a `policy.Transporter`
  wrapper) plus `TestProxyVariables` with `StartTestProxy`/`StopTestProxy`;
  embedded in namespace `TPT`.
* `src/unnamed/part_002` (and the textually identical first portion of
  `src/unnamed/part_001`) — `TestProxy` (a per-call policy) with
  `StartTestProxy`/`StopTestProxy`; embedded in namespace `TP`.
* the second portion of `src/unnamed/part_001` — `TestProxyVariable`
  (a transport with port-based scheme selection) with its own
  `StartTestProxy`/`StopTestProxy`; embedded in namespace `TPV`.

Go's `net/http` values are modelled as follows: a header collection is its
`Header.Get` view (canonical key to value, `""` when absent; `Header.Set`
replaces the value at a key); `*url.URL` keeps the fields the code touches
(`Scheme`, `Host`, `Path`, `RawQuery`); an `*http.Request` keeps `Method`,
`URL`, the `Host` field, headers and body; an `*http.Response` keeps
`StatusCode`, headers, the outcome of reading its body once with
`io.ReadAll` (`Except` models a read error), and its originating `Request`
reference (`resp.Request`).  A call to an underlying client or transport
(`client.Do`, `tpt.transport.Do`, `req.Next()`) returns a Go pair
`(resp, err)`, modelled by `DoResult` with both components optional, and is
abstracted as a function parameter.  A Go function returning `error` yields
`GoOutcome.ok` (nil error), `GoOutcome.err` (non-nil error) or
`GoOutcome.crash` (a runtime panic, e.g. a nil-pointer dereference).
`json.Unmarshal` into `map[string]interface` is external library code and
is abstracted as a parameter returning `none` on success.  The URLs built
by `fmt.Sprintf` and parsed by `http.NewRequest` are embedded directly in
parsed form (scheme, `host:port`, path), assuming a well-formed host and
mode, and `path.Join(root, "recordings", name + ".json")` is embedded as
plain concatenation with `/` separators.
-/

/-- Go `error` values, identified by their message text. -/
abbrev GoErr := String

/-- Header collection seen through `Header.Get`: canonical key to value,
`""` when the key is absent. -/
def Headers : Type := String → String

/-- Header set with no keys, as built by `http.NewRequest`. -/
def Headers.empty : Headers := fun _ => ""

/-- Go `Header.Set k v`: replace the value stored under key `k`. -/
def Headers.set (h : Headers) (k v : String) : Headers :=
  fun q => if q = k then v else h q

/-- Go `Header.Get k`. -/
def Headers.get (h : Headers) (k : String) : String := h k

/-- Go `*url.URL`, restricted to the fields this code reads or writes. -/
structure URL where
  Scheme : String
  Host : String
  Path : String
  RawQuery : String

/-- Go `*http.Request`: method, URL, the `Host` field (host header),
headers and body. -/
structure Request where
  Method : String
  URL : URL
  Host : String
  Header : Headers
  Body : String

/-- Go `*http.Response`: status, headers, the result of reading the body
once with `io.ReadAll`, and the originating-request reference
`resp.Request`. -/
structure Response where
  StatusCode : Int
  Header : Headers
  Body : Except GoErr String
  Request : Request

/-- Result pair `(resp, err)` of a Go HTTP round trip. -/
structure DoResult where
  resp : Option Response
  err : Option GoErr

/-- Outcome of a Go function returning `error`: nil error, non-nil error,
or a runtime panic. -/
inductive GoOutcome where
  | ok : GoOutcome
  | err : GoErr → GoOutcome
  | crash : GoOutcome
deriving DecidableEq

/-- Underlying send primitive (`http.Client.Do`, `policy.Transporter.Do`,
`policy.Request.Next`), abstracted. -/
abbrev Send := Request → DoResult

namespace TPT

/-- Variant of `src/testproxytransport.go` lines 40-46: the custom
`policy.Transporter`.  The wrapped `transport` field is passed to `Do` as a
function parameter instead. -/
structure TestProxyTransport where
  host : String
  port : Int
  mode : String
  recordingId : String

/-- Request mutation performed by `TestProxyTransport.Do`
(`src/testproxytransport.go` lines 58-69) before forwarding: set the
`x-recording-id` and `x-recording-mode` headers, capture the scheme and
host from the request URL, set `x-recording-upstream-base-uri` to
`scheme://host`, and overwrite `req.URL.Host` with `host:port` of the
proxy.  Neither `req.URL.Scheme` nor the `req.Host` field is touched. -/
def TestProxyTransport.rewriteRequest (tpt : TestProxyTransport) (req : Request) : Request :=
  let header := (req.Header.set "x-recording-id" tpt.recordingId).set "x-recording-mode" tpt.mode
  let scheme := req.URL.Scheme
  let host := req.URL.Host
  let baseUri := scheme ++ "://" ++ host
  let header := header.set "x-recording-upstream-base-uri" baseUri
  { req with
    Header := header
    URL := { req.URL with Host := tpt.host ++ ":" ++ toString tpt.port } }

/-- Embedding of `TestProxyTransport.Do` (`src/testproxytransport.go`
lines 58-71): mutate the request and return `tpt.transport.Do(req)`
unchanged — no restoration happens on the response. -/
def TestProxyTransport.Do (tpt : TestProxyTransport) (transport : Send) (req : Request) : DoResult :=
  transport (tpt.rewriteRequest req)

/-- Variant of `src/testproxytransport.go` lines 76-87 (`TestProxyVariables`);
the `HttpClient` field is passed to start/stop as a function parameter. -/
structure TestProxyVariables where
  Host : String
  Port : Int
  Mode : String
  RecordingId : String
  CurrentRecordingPath : String

/-- Request built by `StartTestProxy` in `src/testproxytransport.go`
lines 113-125: POST `https://Host:Port/Mode/start` with a
`Content-Type: application/json` header and the marshalled
`x-recording-file` JSON body. -/
def TestProxyVariables.startRequest (tpv : TestProxyVariables) : Request :=
  { Method := "POST"
    URL := { Scheme := "https", Host := tpv.Host ++ ":" ++ toString tpv.Port,
             Path := "/" ++ tpv.Mode ++ "/start", RawQuery := "" }
    Host := ""
    Header := Headers.empty.set "Content-Type" "application/json"
    Body := "\x7b\"x-recording-file\":\"" ++ tpv.CurrentRecordingPath ++ "\"\x7d" }

/-- Embedding of `StartTestProxy` (`src/testproxytransport.go` lines
111-135): send the start request; on a transport error return it;
otherwise store `resp.Header.Get("x-recording-id")` — with no check that
it is non-empty — and return nil. -/
def StartTestProxy (clientDo : Send) (tpv : TestProxyVariables) :
    TestProxyVariables × GoOutcome :=
  let r := clientDo tpv.startRequest
  match r.err with
  | some e => (tpv, .err e)
  | none =>
    match r.resp with
    | none => (tpv, .crash)
    | some resp => ({ tpv with RecordingId := resp.Header.get "x-recording-id" }, .ok)

/-- Request built by `StopTestProxy` in `src/testproxytransport.go` lines
145-152: POST `https://Host:Port/Mode/stop` with the `x-recording-id`
header and `x-recording-save` set to `strconv.FormatBool(true)`. -/
def TestProxyVariables.stopRequest (tpv : TestProxyVariables) : Request :=
  { Method := "POST"
    URL := { Scheme := "https", Host := tpv.Host ++ ":" ++ toString tpv.Port,
             Path := "/" ++ tpv.Mode ++ "/stop", RawQuery := "" }
    Host := ""
    Header := (Headers.empty.set "x-recording-id" tpv.RecordingId).set "x-recording-save" "true"
    Body := "" }

/-- Embedding of `StopTestProxy` (`src/testproxytransport.go` lines
143-157): send the stop request and return the transport error as-is; the
response status is never inspected. -/
def StopTestProxy (clientDo : Send) (tpv : TestProxyVariables) : GoOutcome :=
  match (clientDo tpv.stopRequest).err with
  | some e => .err e
  | none => .ok

end TPT

namespace TP

/-- Variant of `src/unnamed/part_002` lines 47-53 (identical in the first
portion of `src/unnamed/part_001`): the `TestProxy` per-call policy and
session state. -/
structure TestProxy where
  Host : String
  Port : Int
  Mode : String
  RecordingId : String
  RecordingPath : String

/-- Embedding of `TestProxy.host` (`src/unnamed/part_002` lines 55-57):
`fmt.Sprintf("%s:%d", Host, Port)`. -/
def TestProxy.host (tpv : TestProxy) : String :=
  tpv.Host ++ ":" ++ toString tpv.Port

/-- Embedding of `TestProxy.scheme` (`src/unnamed/part_002` lines 59-61):
always returns `"https"`, independent of the port. -/
def TestProxy.scheme (_ : TestProxy) : String := "https"

/-- Embedding of `TestProxy.baseURL` (`src/unnamed/part_002` lines 63-65):
`fmt.Sprintf("https://%s:%d", Host, Port)`. -/
def TestProxy.baseURL (tpv : TestProxy) : String :=
  "https://" ++ tpv.Host ++ ":" ++ toString tpv.Port

/-- Request mutation performed by `TestProxy.Do` (`src/unnamed/part_002`
lines 72-81) before `req.Next()`: capture the original scheme and host,
overwrite `URL.Scheme`, `URL.Host` and the `Host` field with the proxy's
scheme and `host:port`, then set the `x-recording-upstream-base-uri`,
`x-recording-mode` and `x-recording-id` headers. -/
def TestProxy.rewriteRequest (tpv : TestProxy) (req : Request) : Request :=
  let oriSchema := req.URL.Scheme
  let oriHost := req.URL.Host
  let req := { req with
    URL := { req.URL with Scheme := tpv.scheme, Host := tpv.host }
    Host := tpv.host }
  { req with
    Header :=
      ((req.Header.set "x-recording-upstream-base-uri" (oriSchema ++ "://" ++ oriHost)).set
        "x-recording-mode" tpv.Mode).set "x-recording-id" tpv.RecordingId }

/-- Restoration performed by `TestProxy.Do` (`src/unnamed/part_002` lines
83-89) after `req.Next()`: when a response came back (`resp != nil`), set
`resp.Request.URL.Scheme` and `resp.Request.URL.Host` back to the captured
originals. -/
def restoreResponse (oriSchema oriHost : String) (r : DoResult) : DoResult :=
  match r.resp with
  | none => r
  | some resp =>
    { r with
      resp := some { resp with
        Request := { resp.Request with
          URL := { resp.Request.URL with Scheme := oriSchema, Host := oriHost } } } }

/-- Embedding of `TestProxy.Do` (`src/unnamed/part_002` lines 71-90):
rewrite the request toward the proxy, forward with `req.Next()`, then
restore the original scheme and host on the response's originating-request
reference. -/
def TestProxy.Do (tpv : TestProxy) (next : Send) (req : Request) : DoResult :=
  restoreResponse req.URL.Scheme req.URL.Host (next (tpv.rewriteRequest req))

/-- Embedding of `getRecordingFilePath` (`src/unnamed/part_002` lines
111-113): `path.Join(recordingPath, "recordings", t.Name() + ".json")`. -/
def getRecordingFilePath (recordingPath : String) (tName : String) : String :=
  recordingPath ++ "/recordings/" ++ tName ++ ".json"

/-- Request built by `StartTestProxy` (`src/unnamed/part_002` lines
123-137): POST `baseURL()/Mode/start` (scheme always `https`) with a
`Content-Type: application/json` header and the marshalled
`x-recording-file` JSON body. -/
def TestProxy.startRequest (tName : String) (tpv : TestProxy) : Request :=
  { Method := "POST"
    URL := { Scheme := "https", Host := tpv.host,
             Path := "/" ++ tpv.Mode ++ "/start", RawQuery := "" }
    Host := ""
    Header := Headers.empty.set "Content-Type" "application/json"
    Body := "\x7b\"x-recording-file\":\"" ++
      getRecordingFilePath tpv.RecordingPath tName ++ "\"\x7d" }

/-- Embedding of `StartTestProxy` (`src/unnamed/part_002` lines 118-170).
Paths, in source order: a transport error from `client.Do` is returned
with the session unchanged; with a response in hand, an empty
`x-recording-id` header returns the body-read error or the distinct
"recording ID was not returned" error, still with the session unchanged;
otherwise the recording id is stored on the session, after which a body
read error or a `json.Unmarshal` error (the `unmarshalMap` parameter,
`none` meaning success) is returned with the id already assigned.  The
`tpv == nil` guard at lines 119-121 cannot fire in this by-value model and
a nil response with a nil error would panic at `resp.Header.Get`. -/
def StartTestProxy (unmarshalMap : String → Option GoErr) (clientDo : Send)
    (tName : String) (tpv : TestProxy) : TestProxy × GoOutcome :=
  let r := clientDo (tpv.startRequest tName)
  match r.err with
  | some e => (tpv, .err e)
  | none =>
    match r.resp with
    | none => (tpv, .crash)
    | some resp =>
      let recId := resp.Header.get "x-recording-id"
      if recId = "" then
        match resp.Body with
        | .error e => (tpv, .err e)
        | .ok b =>
          (tpv, .err ("recording ID was not returned by the response. Response body: " ++ b))
      else
        let tpv := { tpv with RecordingId := recId }
        match resp.Body with
        | .error e => (tpv, .err e)
        | .ok body =>
          if body.length > 0 then
            match unmarshalMap body with
            | some e => (tpv, .err e)
            | none => (tpv, .ok)
          else (tpv, .ok)

/-- Request built by `StopTestProxy` (`src/unnamed/part_002` lines
183-189): POST `baseURL()/Mode/stop` (scheme always `https`) carrying only
the `x-recording-id` header — no `x-recording-save` header is set by this
variant. -/
def TestProxy.stopRequest (tpv : TestProxy) : Request :=
  { Method := "POST"
    URL := { Scheme := "https", Host := tpv.host,
             Path := "/" ++ tpv.Mode ++ "/stop", RawQuery := "" }
    Host := ""
    Header := Headers.empty.set "x-recording-id" tpv.RecordingId
    Body := "" }

/-- Embedding of `StopTestProxy` (`src/unnamed/part_002` lines 178-201):
send the stop request, then read `resp.StatusCode` without checking the
error first — a nil response (transport failure) is a nil-pointer panic.
On a non-200 status the response body (or the read error's text) is
embedded in the returned error; on a 200 status the original `client.Do`
error is returned (nil for a well-behaved client). -/
def StopTestProxy (clientDo : Send) (tpv : TestProxy) : GoOutcome :=
  let r := clientDo tpv.stopRequest
  match r.resp with
  | none => .crash
  | some resp =>
    if resp.StatusCode ≠ 200 then
      match resp.Body with
      | .ok b => .err ("proxy did not stop the recording properly: " ++ b)
      | .error e => .err ("proxy did not stop the recording properly: " ++ e)
    else
      match r.err with
      | some e => .err e
      | none => .ok

end TP

namespace TPV

/-- Variant of `src/unnamed/part_001` lines 248-255 (`TestProxyVariable`);
the `Client` field is passed to `Do` as a function parameter. -/
structure TestProxyVariable where
  Host : String
  Port : Int
  Mode : String
  RecordingId : String
  RecordingPath : String

/-- Embedding of `TestProxyVariable.host` (`src/unnamed/part_001` lines
263-265). -/
def TestProxyVariable.host (tpv : TestProxyVariable) : String :=
  tpv.Host ++ ":" ++ toString tpv.Port

/-- Embedding of `TestProxyVariable.scheme` (`src/unnamed/part_001` lines
267-272): `"https"` when the port is 5001, `"http"` otherwise. -/
def TestProxyVariable.scheme (tpv : TestProxyVariable) : String :=
  if tpv.Port = 5001 then "https" else "http"

/-- Embedding of `TestProxyVariable.baseURL` (`src/unnamed/part_001` lines
274-276): `fmt.Sprintf("%s://%s:%d", scheme(), Host, Port)`. -/
def TestProxyVariable.baseURL (tpv : TestProxyVariable) : String :=
  tpv.scheme ++ "://" ++ tpv.Host ++ ":" ++ toString tpv.Port

/-- Request mutation performed by `TestProxyVariable.Do`
(`src/unnamed/part_001` lines 279-288): capture the original scheme and
host, overwrite `URL.Scheme`, `URL.Host` and the `Host` field with the
proxy's scheme and `host:port`, then set the three recording headers. -/
def TestProxyVariable.rewriteRequest (tpv : TestProxyVariable) (req : Request) : Request :=
  let oriSchema := req.URL.Scheme
  let oriHost := req.URL.Host
  let req := { req with
    URL := { req.URL with Scheme := tpv.scheme, Host := tpv.host }
    Host := tpv.host }
  { req with
    Header :=
      ((req.Header.set "x-recording-upstream-base-uri" (oriSchema ++ "://" ++ oriHost)).set
        "x-recording-mode" tpv.Mode).set "x-recording-id" tpv.RecordingId }

/-- Embedding of `TestProxyVariable.Do` (`src/unnamed/part_001` lines
278-299): rewrite the request toward the proxy, forward with
`tpv.Client.Do`, then restore the original scheme and host on
`resp.Request.URL` when a response came back. -/
def TestProxyVariable.Do (tpv : TestProxyVariable) (clientDo : Send) (req : Request) : DoResult :=
  TP.restoreResponse req.URL.Scheme req.URL.Host (clientDo (tpv.rewriteRequest req))

/-- Request built by `StartTestProxy` (`src/unnamed/part_001` lines
331-345): POST `baseURL()/Mode/start` — the scheme here follows the
port-based selection — with the `Content-Type` header and marshalled
body. -/
def TestProxyVariable.startRequest (tName : String) (tpv : TestProxyVariable) : Request :=
  { Method := "POST"
    URL := { Scheme := tpv.scheme, Host := tpv.host,
             Path := "/" ++ tpv.Mode ++ "/start", RawQuery := "" }
    Host := ""
    Header := Headers.empty.set "Content-Type" "application/json"
    Body := "\x7b\"x-recording-file\":\"" ++
      TP.getRecordingFilePath tpv.RecordingPath tName ++ "\"\x7d" }

/-- Embedding of `StartTestProxy` (`src/unnamed/part_001` lines 326-378),
structurally identical to the `part_002` variant apart from the port-based
scheme in the URL. -/
def StartTestProxy (unmarshalMap : String → Option GoErr) (clientDo : Send)
    (tName : String) (tpv : TestProxyVariable) : TestProxyVariable × GoOutcome :=
  let r := clientDo (tpv.startRequest tName)
  match r.err with
  | some e => (tpv, .err e)
  | none =>
    match r.resp with
    | none => (tpv, .crash)
    | some resp =>
      let recId := resp.Header.get "x-recording-id"
      if recId = "" then
        match resp.Body with
        | .error e => (tpv, .err e)
        | .ok b =>
          (tpv, .err ("recording ID was not returned by the response. Response body: " ++ b))
      else
        let tpv := { tpv with RecordingId := recId }
        match resp.Body with
        | .error e => (tpv, .err e)
        | .ok body =>
          if body.length > 0 then
            match unmarshalMap body with
            | some e => (tpv, .err e)
            | none => (tpv, .ok)
          else (tpv, .ok)

/-- Request built by `StopTestProxy` (`src/unnamed/part_001` lines
391-397): POST `baseURL()/Mode/stop` carrying only the `x-recording-id`
header — no `x-recording-save` header is set by this variant either. -/
def TestProxyVariable.stopRequest (tpv : TestProxyVariable) : Request :=
  { Method := "POST"
    URL := { Scheme := tpv.scheme, Host := tpv.host,
             Path := "/" ++ tpv.Mode ++ "/stop", RawQuery := "" }
    Host := ""
    Header := Headers.empty.set "x-recording-id" tpv.RecordingId
    Body := "" }

/-- Embedding of `StopTestProxy` (`src/unnamed/part_001` lines 386-410):
identical control flow to the `part_002` variant, including the unguarded
`resp.StatusCode` dereference. -/
def StopTestProxy (clientDo : Send) (tpv : TestProxyVariable) : GoOutcome :=
  let r := clientDo tpv.stopRequest
  match r.resp with
  | none => .crash
  | some resp =>
    if resp.StatusCode ≠ 200 then
      match resp.Body with
      | .ok b => .err ("proxy did not stop the recording properly: " ++ b)
      | .error e => .err ("proxy did not stop the recording properly: " ++ e)
    else
      match r.err with
      | some e => .err e
      | none => .ok

end TPV

/-! Concrete values used to evaluate the embedded operations, mirroring the
scenario in the repository's test (`localhost:5001`, mode `record`,
session id `abc123`, an app request to `https://service.example.com/foo`). -/

/-- Concrete application request aimed at the real service. -/
def reqEx : Request :=
  { Method := "GET"
    URL := { Scheme := "https", Host := "service.example.com", Path := "/foo", RawQuery := "" }
    Host := "service.example.com"
    Header := Headers.empty
    Body := "" }

/-- Concrete `TestProxyTransport` pointed at `localhost:5001`. -/
def tptEx : TPT.TestProxyTransport :=
  { host := "localhost", port := 5001, mode := "record", recordingId := "abc123" }

/-- Concrete `TestProxyVariables` with no session id assigned yet. -/
def tptvEx : TPT.TestProxyVariables :=
  { Host := "localhost", Port := 5001, Mode := "record", RecordingId := ""
    CurrentRecordingPath := "/demo/recordings/TestCosmosDBTables.json" }

/-- Concrete started `TestProxy` session. -/
def tpEx : TP.TestProxy :=
  { Host := "localhost", Port := 5001, Mode := "record", RecordingId := "abc123"
    RecordingPath := "/demo" }

/-- Concrete `TestProxy` session before start (empty recording id). -/
def tpFresh : TP.TestProxy :=
  { Host := "localhost", Port := 5001, Mode := "record", RecordingId := ""
    RecordingPath := "/demo" }

/-- Concrete started `TestProxyVariable` session. -/
def tpvEx : TPV.TestProxyVariable :=
  { Host := "localhost", Port := 5001, Mode := "record", RecordingId := "abc123"
    RecordingPath := "/demo" }

/-- Send primitive behaving like `net/http`: it answers 200 with an empty
body and, as Go's client does, references on the response the request it
was handed. -/
def echoSend : Send := fun r =>
  { resp := some { StatusCode := 200, Header := Headers.empty, Body := Except.ok "", Request := r }
    err := none }

/-- Fallback response used with `Option.getD` when extracting the response
out of a `DoResult`. -/
def respDefault : Response :=
  { StatusCode := 0, Header := Headers.empty, Body := Except.ok "", Request := reqEx }

/-- Proxy response that lacks the `x-recording-id` header. -/
def respNoId : Response :=
  { StatusCode := 200, Header := Headers.empty, Body := Except.ok "no recording id here"
    Request := reqEx }

/-- Send primitive whose proxy answer lacks the `x-recording-id` header. -/
def sendNoId : Send := fun _ => { resp := some respNoId, err := none }

/-- Proxy response with status 500 and a readable body. -/
def resp500 : Response :=
  { StatusCode := 500, Header := Headers.empty, Body := Except.ok "stop failed"
    Request := reqEx }

/-- Send primitive whose proxy answer is a status-500 response. -/
def send500 : Send := fun _ => { resp := some resp500, err := none }

/-- Proxy response carrying `x-recording-id: abc123` whose body read
fails. -/
def respIdReadErr : Response :=
  { StatusCode := 200, Header := Headers.empty.set "x-recording-id" "abc123"
    Body := Except.error "read failed", Request := reqEx }

/-- Send primitive returning `respIdReadErr`. -/
def sendIdReadErr : Send := fun _ => { resp := some respIdReadErr, err := none }

/-- Send primitive failing at the transport level, as `client.Do` does when
the proxy is unreachable: nil response, non-nil error. -/
def sendRefused : Send := fun _ => { resp := none, err := some "connection refused" }

/-- Model of `json.Unmarshal` into a string map succeeding on every
body. -/
def unmarshalOk : String → Option GoErr := fun _ => none

/-- Response produced by `echoSend` for the concrete `TestProxy` stop
request. -/
def stopRespTP : Response :=
  { StatusCode := 200, Header := Headers.empty, Body := Except.ok ""
    Request := TP.TestProxy.stopRequest tpEx }

/-- Response produced by `echoSend` for the concrete `TestProxyVariable`
stop request. -/
def stopRespTPV : Response :=
  { StatusCode := 200, Header := Headers.empty, Body := Except.ok ""
    Request := TPV.TestProxyVariable.stopRequest tpvEx }

/-- Response produced by `echoSend` for the concrete `TestProxyVariables`
stop request. -/
def stopRespTPT : Response :=
  { StatusCode := 200, Header := Headers.empty, Body := Except.ok ""
    Request := TPT.TestProxyVariables.stopRequest tptvEx }

/-! Helper lemmas about the header model. -/

theorem Headers.get_set_self (h : Headers) (k v : String) : (h.set k v).get k = v := by
  simp [Headers.set, Headers.get]

theorem Headers.get_set_ne (h : Headers) (k v q : String) (hq : q ≠ k) :
    (h.set k v).get q = h.get q := by
  simp [Headers.set, Headers.get, hq]

/-- Unfolding lemma for the restoration step: whenever `restoreResponse`
yields a response, that response's originating-request URL carries exactly
the scheme and host being restored. -/
theorem restoreResponse_resp_spec (s hst : String) (r : DoResult) (resp : Response)
    (hres : (TP.restoreResponse s hst r).resp = some resp) :
    resp.Request.URL.Scheme = s ∧ resp.Request.URL.Host = hst := by
  unfold TP.restoreResponse at hres
  cases hr : r.resp with
  | none =>
    rw [hr] at hres
    simp at hres
    rw [hr] at hres
    exact absurd hres (by simp)
  | some rr =>
    rw [hr] at hres
    simp only [Option.some.injEq] at hres
    subst hres
    exact ⟨rfl, rfl⟩

/-! Claim theorems. -/

/-- C1 (amended): for `TestProxy.Do` (part_001/part_002) and
`TestProxyVariable.Do`, whenever the call yields a response, the scheme and
host captured from the request before the rewrite are restored exactly on
the response's originating-request reference; `TestProxyTransport.Do`
(testproxytransport.go) performs no such restoration. -/
theorem do_restores_original_scheme_host
    (tp : TP.TestProxy) (tpv : TPV.TestProxyVariable) (next : Send)
    (req q : Request) (resp rsp : Response)
    (h1 : (tp.Do next req).resp = some resp)
    (h2 : (tpv.Do next q).resp = some rsp) :
    (resp.Request.URL.Scheme = req.URL.Scheme ∧ resp.Request.URL.Host = req.URL.Host)
    ∧ (rsp.Request.URL.Scheme = q.URL.Scheme ∧ rsp.Request.URL.Host = q.URL.Host) := by
  constructor
  · exact restoreResponse_resp_spec req.URL.Scheme req.URL.Host
      (next (tp.rewriteRequest req)) resp h1
  · exact restoreResponse_resp_spec q.URL.Scheme q.URL.Host
      (next (tpv.rewriteRequest q)) rsp h2

/-- Witness for C1's amended theorem: the round trip evaluated on the
concrete scenario request through both restoring variants. -/
theorem do_restores_original_scheme_host_witness :
    ((TP.TestProxy.Do tpEx echoSend reqEx).resp
        = some ((TP.TestProxy.Do tpEx echoSend reqEx).resp.getD respDefault))
    ∧ ((TPV.TestProxyVariable.Do tpvEx echoSend reqEx).resp
        = some ((TPV.TestProxyVariable.Do tpvEx echoSend reqEx).resp.getD respDefault))
    ∧ ((((TP.TestProxy.Do tpEx echoSend reqEx).resp.getD respDefault).Request.URL.Scheme
            = reqEx.URL.Scheme
        ∧ ((TP.TestProxy.Do tpEx echoSend reqEx).resp.getD respDefault).Request.URL.Host
            = reqEx.URL.Host)
      ∧ (((TPV.TestProxyVariable.Do tpvEx echoSend reqEx).resp.getD respDefault).Request.URL.Scheme
            = reqEx.URL.Scheme
        ∧ ((TPV.TestProxyVariable.Do tpvEx echoSend reqEx).resp.getD respDefault).Request.URL.Host
            = reqEx.URL.Host)) :=
  ⟨rfl, rfl,
    do_restores_original_scheme_host tpEx tpvEx echoSend reqEx reqEx
      ((TP.TestProxy.Do tpEx echoSend reqEx).resp.getD respDefault)
      ((TPV.TestProxyVariable.Do tpvEx echoSend reqEx).resp.getD respDefault) rfl rfl⟩

/-- C1 counterexample: `TestProxyTransport.Do` (testproxytransport.go,
also cited by the claim) does not restore anything — with an underlying
transport that, like Go's client, references the request it received, the
returned response's originating request still carries the proxy host
`localhost:5001`, not the captured original host `service.example.com`. -/
theorem tpt_do_no_restore_counterexample :
    ((TPT.TestProxyTransport.Do tptEx echoSend reqEx).resp.map
        (fun r => r.Request.URL.Host)) = some "localhost:5001"
    ∧ reqEx.URL.Host = "service.example.com"
    ∧ ("localhost:5001" : String) ≠ "service.example.com" :=
  ⟨rfl, rfl, by decide⟩

/-- C2 (confirmed): in every variant, the request forwarded by `Do` carries
`x-recording-upstream-base-uri` equal to `scheme://host` captured before
the rewrite, `x-recording-mode` equal to the session's mode, and
`x-recording-id` equal to the session's recording id. -/
theorem do_sets_recording_headers
    (tpt : TPT.TestProxyTransport) (tp : TP.TestProxy) (tpv : TPV.TestProxyVariable)
    (req : Request) :
    ((tpt.rewriteRequest req).Header.get "x-recording-upstream-base-uri"
        = req.URL.Scheme ++ "://" ++ req.URL.Host
      ∧ (tpt.rewriteRequest req).Header.get "x-recording-mode" = tpt.mode
      ∧ (tpt.rewriteRequest req).Header.get "x-recording-id" = tpt.recordingId)
    ∧ ((tp.rewriteRequest req).Header.get "x-recording-upstream-base-uri"
        = req.URL.Scheme ++ "://" ++ req.URL.Host
      ∧ (tp.rewriteRequest req).Header.get "x-recording-mode" = tp.Mode
      ∧ (tp.rewriteRequest req).Header.get "x-recording-id" = tp.RecordingId)
    ∧ ((tpv.rewriteRequest req).Header.get "x-recording-upstream-base-uri"
        = req.URL.Scheme ++ "://" ++ req.URL.Host
      ∧ (tpv.rewriteRequest req).Header.get "x-recording-mode" = tpv.Mode
      ∧ (tpv.rewriteRequest req).Header.get "x-recording-id" = tpv.RecordingId) := by
  refine ⟨⟨?_, ?_, ?_⟩, ⟨?_, ?_, ?_⟩, ⟨?_, ?_, ?_⟩⟩ <;>
    simp [TPT.TestProxyTransport.rewriteRequest, TP.TestProxy.rewriteRequest,
      TPV.TestProxyVariable.rewriteRequest, Headers.get, Headers.set]

/-- C3 (amended): `TestProxy.Do` and `TestProxyVariable.Do` overwrite the
URL scheme, URL host and `Host` field with the proxy's scheme and
`host:port` before forwarding; `TestProxyTransport.Do`
(testproxytransport.go) overwrites only the URL host, leaving the URL
scheme and the `Host` field at their original values. -/
theorem do_rewrites_target_amended
    (tpt : TPT.TestProxyTransport) (tp : TP.TestProxy) (tpv : TPV.TestProxyVariable)
    (req : Request) :
    ((tp.rewriteRequest req).URL.Scheme = tp.scheme
      ∧ (tp.rewriteRequest req).URL.Host = tp.host
      ∧ (tp.rewriteRequest req).Host = tp.host)
    ∧ ((tpv.rewriteRequest req).URL.Scheme = tpv.scheme
      ∧ (tpv.rewriteRequest req).URL.Host = tpv.host
      ∧ (tpv.rewriteRequest req).Host = tpv.host)
    ∧ ((tpt.rewriteRequest req).URL.Host = tpt.host ++ ":" ++ toString tpt.port
      ∧ (tpt.rewriteRequest req).URL.Scheme = req.URL.Scheme
      ∧ (tpt.rewriteRequest req).Host = req.Host) := by
  refine ⟨⟨?_, ?_, ?_⟩, ⟨?_, ?_, ?_⟩, ⟨?_, ?_, ?_⟩⟩ <;>
    simp [TPT.TestProxyTransport.rewriteRequest, TP.TestProxy.rewriteRequest,
      TPV.TestProxyVariable.rewriteRequest]

/-- C3 counterexample: `TestProxyTransport.Do` (cited by the claim) leaves
the `Host` field untouched — on the scenario request it still reads
`service.example.com` rather than the proxy's `localhost:5001`. -/
theorem tpt_do_keeps_host_field_counterexample :
    (TPT.TestProxyTransport.rewriteRequest tptEx reqEx).Host = "service.example.com"
    ∧ ("service.example.com" : String) ≠ "localhost:5001" :=
  ⟨rfl, by decide⟩

/-- C4 (amended): for the `StartTestProxy` of part_001 and part_002, a
proxy response lacking the `x-recording-id` header never yields success —
when the body is readable the distinct "recording ID was not returned"
error embedding the body is returned, and the session's recording id is
left unchanged.  (The `StartTestProxy` of testproxytransport.go performs
no such check; see the counterexample.) -/
theorem start_missing_id_amended
    (unm : String → Option GoErr) (cd : Send) (tName : String)
    (tp : TP.TestProxy) (tpv : TPV.TestProxyVariable) (ra rb : Response)
    (h1 : cd (tp.startRequest tName) = { resp := some ra, err := none })
    (h2 : ra.Header.get "x-recording-id" = "")
    (h3 : cd (TPV.TestProxyVariable.startRequest tName tpv) = { resp := some rb, err := none })
    (h4 : rb.Header.get "x-recording-id" = "") :
    ((∃ e, (TP.StartTestProxy unm cd tName tp).2 = GoOutcome.err e)
      ∧ (TP.StartTestProxy unm cd tName tp).1.RecordingId = tp.RecordingId
      ∧ ∀ b, ra.Body = Except.ok b →
          (TP.StartTestProxy unm cd tName tp).2
            = GoOutcome.err ("recording ID was not returned by the response. Response body: " ++ b))
    ∧ ((∃ e, (TPV.StartTestProxy unm cd tName tpv).2 = GoOutcome.err e)
      ∧ (TPV.StartTestProxy unm cd tName tpv).1.RecordingId = tpv.RecordingId
      ∧ ∀ b, rb.Body = Except.ok b →
          (TPV.StartTestProxy unm cd tName tpv).2
            = GoOutcome.err ("recording ID was not returned by the response. Response body: " ++ b)) := by
  constructor
  · unfold TP.StartTestProxy
    rw [h1]
    cases hb : ra.Body with
    | error e =>
      exact ⟨⟨e, by simp [h2, hb]⟩, by simp [h2, hb], fun b hbb => nomatch hbb⟩
    | ok b =>
      refine ⟨⟨"recording ID was not returned by the response. Response body: " ++ b,
        by simp [h2, hb]⟩, by simp [h2, hb], fun c hbb => ?_⟩
      cases hbb
      simp [h2, hb]
  · unfold TPV.StartTestProxy
    rw [h3]
    cases hb : rb.Body with
    | error e =>
      exact ⟨⟨e, by simp [h4, hb]⟩, by simp [h4, hb], fun b hbb => nomatch hbb⟩
    | ok b =>
      refine ⟨⟨"recording ID was not returned by the response. Response body: " ++ b,
        by simp [h4, hb]⟩, by simp [h4, hb], fun c hbb => ?_⟩
      cases hbb
      simp [h4, hb]

/-- Witness for C4's amended theorem: evaluated on the concrete response
`respNoId`, which has no `x-recording-id` header. -/
theorem start_missing_id_amended_witness :
    (sendNoId (TP.TestProxy.startRequest "TestCosmosDBTables" tpFresh)
        = { resp := some respNoId, err := none })
    ∧ respNoId.Header.get "x-recording-id" = ""
    ∧ (sendNoId (TPV.TestProxyVariable.startRequest "TestCosmosDBTables" tpvEx)
        = { resp := some respNoId, err := none })
    ∧ (∃ e, (TP.StartTestProxy unmarshalOk sendNoId "TestCosmosDBTables" tpFresh).2
        = GoOutcome.err e) :=
  ⟨rfl, rfl, rfl,
    (start_missing_id_amended unmarshalOk sendNoId "TestCosmosDBTables" tpFresh tpvEx
      respNoId respNoId rfl rfl rfl rfl).1.1⟩

/-- C4 counterexample: the `StartTestProxy` of testproxytransport.go (cited
by the claim) returns success and an empty session id when the proxy's
response lacks the `x-recording-id` header. -/
theorem tpt_start_missing_id_counterexample :
    TPT.StartTestProxy sendNoId tptvEx = (tptvEx, GoOutcome.ok)
    ∧ tptvEx.RecordingId = "" :=
  ⟨rfl, rfl⟩

/-- C5 (amended): only the `StopTestProxy` of testproxytransport.go sends
both the session id header and `x-recording-save: true` on its POST to
`https://host:port/mode/stop`; the stops of part_001 and part_002 send the
session id header but no `x-recording-save` header at all. -/
theorem stop_request_headers_amended
    (tptv : TPT.TestProxyVariables) (tp : TP.TestProxy) (tpv : TPV.TestProxyVariable) :
    (tptv.stopRequest.Method = "POST"
      ∧ tptv.stopRequest.URL.Scheme = "https"
      ∧ tptv.stopRequest.URL.Host = tptv.Host ++ ":" ++ toString tptv.Port
      ∧ tptv.stopRequest.URL.Path = "/" ++ tptv.Mode ++ "/stop"
      ∧ tptv.stopRequest.Header.get "x-recording-id" = tptv.RecordingId
      ∧ tptv.stopRequest.Header.get "x-recording-save" = "true")
    ∧ (tp.stopRequest.Method = "POST"
      ∧ tp.stopRequest.URL.Scheme = "https"
      ∧ tp.stopRequest.URL.Host = tp.host
      ∧ tp.stopRequest.URL.Path = "/" ++ tp.Mode ++ "/stop"
      ∧ tp.stopRequest.Header.get "x-recording-id" = tp.RecordingId
      ∧ tp.stopRequest.Header.get "x-recording-save" = "")
    ∧ (tpv.stopRequest.Method = "POST"
      ∧ tpv.stopRequest.URL.Scheme = tpv.scheme
      ∧ tpv.stopRequest.URL.Host = tpv.host
      ∧ tpv.stopRequest.URL.Path = "/" ++ tpv.Mode ++ "/stop"
      ∧ tpv.stopRequest.Header.get "x-recording-id" = tpv.RecordingId
      ∧ tpv.stopRequest.Header.get "x-recording-save" = "") := by
  refine ⟨⟨rfl, rfl, rfl, rfl, ?_, ?_⟩, ⟨rfl, rfl, rfl, rfl, ?_, ?_⟩,
    ⟨rfl, rfl, rfl, rfl, ?_, ?_⟩⟩ <;>
    simp [TPT.TestProxyVariables.stopRequest, TP.TestProxy.stopRequest,
      TPV.TestProxyVariable.stopRequest, Headers.get, Headers.set, Headers.empty]

/-- C5 counterexample: the stop request of the part_002 `StopTestProxy`
(cited by the claim) for the concrete started session carries no
`x-recording-save` header. -/
theorem tp_stop_no_save_header_counterexample :
    (TP.TestProxy.stopRequest tpEx).Header.get "x-recording-save" = ""
    ∧ ("" : String) ≠ "true" :=
  ⟨rfl, by decide⟩

/-- C6 (amended): when the proxy responds (non-nil response, nil transport
error), the stops of part_001 and part_002 return no error on status 200
and return an error embedding the response body text (or the read-error
text) on any other status; the `StopTestProxy` of testproxytransport.go
returns no error regardless of the response status. -/
theorem stop_status_check_amended
    (cd : Send) (tp : TP.TestProxy) (tpv : TPV.TestProxyVariable)
    (tptv : TPT.TestProxyVariables) (ra rb rc : Response)
    (h1 : cd tp.stopRequest = { resp := some ra, err := none })
    (h2 : cd tpv.stopRequest = { resp := some rb, err := none })
    (h3 : cd tptv.stopRequest = { resp := some rc, err := none }) :
    ((ra.StatusCode = 200 → TP.StopTestProxy cd tp = GoOutcome.ok)
      ∧ (ra.StatusCode ≠ 200 → ∀ b, ra.Body = Except.ok b →
          TP.StopTestProxy cd tp
            = GoOutcome.err ("proxy did not stop the recording properly: " ++ b))
      ∧ (ra.StatusCode ≠ 200 → ∀ e, ra.Body = Except.error e →
          TP.StopTestProxy cd tp
            = GoOutcome.err ("proxy did not stop the recording properly: " ++ e)))
    ∧ ((rb.StatusCode = 200 → TPV.StopTestProxy cd tpv = GoOutcome.ok)
      ∧ (rb.StatusCode ≠ 200 → ∀ b, rb.Body = Except.ok b →
          TPV.StopTestProxy cd tpv
            = GoOutcome.err ("proxy did not stop the recording properly: " ++ b))
      ∧ (rb.StatusCode ≠ 200 → ∀ e, rb.Body = Except.error e →
          TPV.StopTestProxy cd tpv
            = GoOutcome.err ("proxy did not stop the recording properly: " ++ e)))
    ∧ TPT.StopTestProxy cd tptv = GoOutcome.ok := by
  refine ⟨?_, ?_, ?_⟩
  · unfold TP.StopTestProxy
    rw [h1]
    exact ⟨fun hs => by simp [hs],
      fun hs b hb => by simp [hs, hb],
      fun hs e he => by simp [hs, he]⟩
  · unfold TPV.StopTestProxy
    rw [h2]
    exact ⟨fun hs => by simp [hs],
      fun hs b hb => by simp [hs, hb],
      fun hs e he => by simp [hs, he]⟩
  · unfold TPT.StopTestProxy
    rw [h3]

/-- Witness for C6's amended theorem: evaluated with the concrete 200
responses produced by `echoSend`. -/
theorem stop_status_check_amended_witness :
    (echoSend (TP.TestProxy.stopRequest tpEx) = { resp := some stopRespTP, err := none })
    ∧ (echoSend (TPV.TestProxyVariable.stopRequest tpvEx)
        = { resp := some stopRespTPV, err := none })
    ∧ (echoSend (TPT.TestProxyVariables.stopRequest tptvEx)
        = { resp := some stopRespTPT, err := none })
    ∧ TP.StopTestProxy echoSend tpEx = GoOutcome.ok :=
  ⟨rfl, rfl, rfl,
    (stop_status_check_amended echoSend tpEx tpvEx tptvEx stopRespTP stopRespTPV stopRespTPT
      rfl rfl rfl).1.1 rfl⟩

/-- C6 counterexample: on a status-500 response with readable body, the
`StopTestProxy` of testproxytransport.go (cited by the claim) returns no
error at all. -/
theorem tpt_stop_ignores_status_counterexample :
    TPT.StopTestProxy send500 tptvEx = GoOutcome.ok
    ∧ resp500.StatusCode = 500
    ∧ (500 : Int) ≠ 200 :=
  ⟨rfl, rfl, by decide⟩

/-- C7 (code bug): when the underlying client fails at the transport level
— nil response, non-nil error, as `http.Client.Do` produces when the proxy
is unreachable — the `StopTestProxy` of part_001 and part_002 dereferences
`resp.StatusCode` on the nil response and panics instead of returning the
error. -/
theorem stop_transport_error_crashes
    (tp : TP.TestProxy) (tpv : TPV.TestProxyVariable) (e : GoErr) :
    TP.StopTestProxy (fun _ => { resp := none, err := some e }) tp = GoOutcome.crash
    ∧ TPV.StopTestProxy (fun _ => { resp := none, err := some e }) tpv = GoOutcome.crash :=
  ⟨rfl, rfl⟩

/-- C8 (amended): scheme selection is inconsistent across the cited
variants.  `TestProxyVariable` (part_001) uses `https` exactly when the
configured port is 5001 and `http` otherwise, uniformly for its start
request, stop request and intercepted send; `TestProxy` (part_002) uses
`https` for start, stop and send regardless of the port; the start and
stop of testproxytransport.go hard-code `https`, and its `Do` leaves the
request's scheme untouched. -/
theorem scheme_selection_amended
    (tpv : TPV.TestProxyVariable) (tp : TP.TestProxy) (tptv : TPT.TestProxyVariables)
    (tpt : TPT.TestProxyTransport) (req : Request) (tName : String) :
    ((TPV.TestProxyVariable.startRequest tName tpv).URL.Scheme
        = (if tpv.Port = 5001 then "https" else "http")
      ∧ tpv.stopRequest.URL.Scheme = (if tpv.Port = 5001 then "https" else "http")
      ∧ (tpv.rewriteRequest req).URL.Scheme = (if tpv.Port = 5001 then "https" else "http"))
    ∧ ((TP.TestProxy.startRequest tName tp).URL.Scheme = "https"
      ∧ tp.stopRequest.URL.Scheme = "https"
      ∧ (tp.rewriteRequest req).URL.Scheme = "https")
    ∧ (tptv.startRequest.URL.Scheme = "https"
      ∧ tptv.stopRequest.URL.Scheme = "https"
      ∧ (tpt.rewriteRequest req).URL.Scheme = req.URL.Scheme) := by
  refine ⟨⟨?_, ?_, ?_⟩, ⟨rfl, rfl, rfl⟩, ⟨rfl, rfl, rfl⟩⟩ <;>
    simp [TPV.TestProxyVariable.startRequest, TPV.TestProxyVariable.stopRequest,
      TPV.TestProxyVariable.rewriteRequest, TPV.TestProxyVariable.scheme]

/-- C8 counterexample: at port 8080 — not the well-known secure port — the
`TestProxy.scheme` of part_002 (cited by the claim) still answers
`https`, where the claim demands `http`. -/
theorem tp_scheme_always_https_counterexample :
    TP.TestProxy.scheme
      { Host := "localhost", Port := 8080, Mode := "record", RecordingId := ""
        RecordingPath := "" } = "https"
    ∧ ("https" : String) ≠ "http" :=
  ⟨rfl, by decide⟩

/-- C9 (amended): for the `StartTestProxy` of part_001 and part_002, every
start call that returns an error leaves the session's recording id
unchanged, unless the proxy's response did carry a non-empty
`x-recording-id` and a later step (body read or JSON unmarshal) failed, in
which case the error is returned with the recording id already assigned to
the proxy's value — start is not atomic in those cases. -/
theorem start_error_recording_id_amended
    (unm : String → Option GoErr) (cd : Send) (tName : String)
    (tp : TP.TestProxy) (tpv : TPV.TestProxyVariable) (e f : GoErr)
    (_h1 : (TP.StartTestProxy unm cd tName tp).2 = GoOutcome.err e)
    (_h2 : (TPV.StartTestProxy unm cd tName tpv).2 = GoOutcome.err f) :
    ((TP.StartTestProxy unm cd tName tp).1.RecordingId = tp.RecordingId
      ∨ ∃ resp, (cd (tp.startRequest tName)).resp = some resp
          ∧ resp.Header.get "x-recording-id" ≠ ""
          ∧ (TP.StartTestProxy unm cd tName tp).1.RecordingId
              = resp.Header.get "x-recording-id")
    ∧ ((TPV.StartTestProxy unm cd tName tpv).1.RecordingId = tpv.RecordingId
      ∨ ∃ resp, (cd (TPV.TestProxyVariable.startRequest tName tpv)).resp = some resp
          ∧ resp.Header.get "x-recording-id" ≠ ""
          ∧ (TPV.StartTestProxy unm cd tName tpv).1.RecordingId
              = resp.Header.get "x-recording-id") := by
  constructor
  · unfold TP.StartTestProxy
    rcases hcd : cd (tp.startRequest tName) with ⟨orsp, oerr⟩
    cases oerr with
    | some e2 => left; rfl
    | none =>
      cases orsp with
      | none => left; rfl
      | some resp =>
        by_cases hid : resp.Header.get "x-recording-id" = ""
        · left
          cases hb : resp.Body <;> simp [hid, hb]
        · right
          refine ⟨resp, rfl, hid, ?_⟩
          cases hb : resp.Body with
          | error e3 => simp [hid, hb]
          | ok body => rcases hu : unm body with _ | e4 <;> by_cases hl : body.length > 0 <;>
              simp [hid, hb, hu, hl]
  · unfold TPV.StartTestProxy
    rcases hcd : cd (TPV.TestProxyVariable.startRequest tName tpv) with ⟨orsp, oerr⟩
    cases oerr with
    | some e2 => left; rfl
    | none =>
      cases orsp with
      | none => left; rfl
      | some resp =>
        by_cases hid : resp.Header.get "x-recording-id" = ""
        · left
          cases hb : resp.Body <;> simp [hid, hb]
        · right
          refine ⟨resp, rfl, hid, ?_⟩
          cases hb : resp.Body with
          | error e3 => simp [hid, hb]
          | ok body => rcases hu : unm body with _ | e4 <;> by_cases hl : body.length > 0 <;>
              simp [hid, hb, hu, hl]

/-- Witness for C9's amended theorem: evaluated on the transport-failure
send, whose start error leaves the session untouched. -/
theorem start_error_recording_id_amended_witness :
    (TP.StartTestProxy unmarshalOk sendRefused "TestCosmosDBTables" tpFresh).2
        = GoOutcome.err "connection refused"
    ∧ (TPV.StartTestProxy unmarshalOk sendRefused "TestCosmosDBTables" tpvEx).2
        = GoOutcome.err "connection refused"
    ∧ ((TP.StartTestProxy unmarshalOk sendRefused "TestCosmosDBTables" tpFresh).1.RecordingId
          = tpFresh.RecordingId
      ∨ ∃ resp, (sendRefused (TP.TestProxy.startRequest "TestCosmosDBTables" tpFresh)).resp
            = some resp
          ∧ resp.Header.get "x-recording-id" ≠ ""
          ∧ (TP.StartTestProxy unmarshalOk sendRefused "TestCosmosDBTables" tpFresh).1.RecordingId
              = resp.Header.get "x-recording-id") :=
  ⟨rfl, rfl,
    (start_error_recording_id_amended unmarshalOk sendRefused "TestCosmosDBTables" tpFresh tpvEx
      "connection refused" "connection refused" rfl rfl).1⟩

/-- C9 counterexample: a proxy response carrying `x-recording-id: abc123`
whose body read fails makes `StartTestProxy` (part_002 model) return an
error while the recording id — empty beforehand — has already been set to
`abc123`. -/
theorem start_partial_assignment_counterexample :
    (TP.StartTestProxy unmarshalOk sendIdReadErr "TestCosmosDBTables" tpFresh).2
        = GoOutcome.err "read failed"
    ∧ (TP.StartTestProxy unmarshalOk sendIdReadErr "TestCosmosDBTables" tpFresh).1.RecordingId
        = "abc123"
    ∧ tpFresh.RecordingId = "" :=
  ⟨rfl, rfl, rfl⟩

/-- C10 (confirmed): in every variant, the request forwarded by `Do`
agrees with the original on the HTTP method, URL path, query string and
body, and on every header other than the three `x-recording-*` ones. -/
theorem do_frame_preserves_rest
    (tpt : TPT.TestProxyTransport) (tp : TP.TestProxy) (tpv : TPV.TestProxyVariable)
    (req : Request) (k : String)
    (hk1 : k ≠ "x-recording-id") (hk2 : k ≠ "x-recording-mode")
    (hk3 : k ≠ "x-recording-upstream-base-uri") :
    ((tpt.rewriteRequest req).Method = req.Method
      ∧ (tpt.rewriteRequest req).URL.Path = req.URL.Path
      ∧ (tpt.rewriteRequest req).URL.RawQuery = req.URL.RawQuery
      ∧ (tpt.rewriteRequest req).Body = req.Body
      ∧ (tpt.rewriteRequest req).Header.get k = req.Header.get k)
    ∧ ((tp.rewriteRequest req).Method = req.Method
      ∧ (tp.rewriteRequest req).URL.Path = req.URL.Path
      ∧ (tp.rewriteRequest req).URL.RawQuery = req.URL.RawQuery
      ∧ (tp.rewriteRequest req).Body = req.Body
      ∧ (tp.rewriteRequest req).Header.get k = req.Header.get k)
    ∧ ((tpv.rewriteRequest req).Method = req.Method
      ∧ (tpv.rewriteRequest req).URL.Path = req.URL.Path
      ∧ (tpv.rewriteRequest req).URL.RawQuery = req.URL.RawQuery
      ∧ (tpv.rewriteRequest req).Body = req.Body
      ∧ (tpv.rewriteRequest req).Header.get k = req.Header.get k) := by
  refine ⟨⟨rfl, rfl, rfl, rfl, ?_⟩, ⟨rfl, rfl, rfl, rfl, ?_⟩, ⟨rfl, rfl, rfl, rfl, ?_⟩⟩ <;>
    simp [TPT.TestProxyTransport.rewriteRequest, TP.TestProxy.rewriteRequest,
      TPV.TestProxyVariable.rewriteRequest, Headers.get, Headers.set, hk1, hk2, hk3]

/-- Witness for C10's theorem: the `Authorization` header of the concrete
scenario request is untouched by all three rewrites. -/
theorem do_frame_preserves_rest_witness :
    ("Authorization" : String) ≠ "x-recording-id"
    ∧ ((TPT.TestProxyTransport.rewriteRequest tptEx reqEx).Header.get "Authorization"
        = reqEx.Header.get "Authorization") :=
  ⟨by decide,
    (do_frame_preserves_rest tptEx tpEx tpvEx reqEx "Authorization"
      (by decide) (by decide) (by decide)).1.2.2.2.2⟩
